import Mathlib

/-!
Verification development for the Query Interpretation & Tabular Analysis
Engine of the Samarth prototype.  The Python sources (`data_loader.py`,
`parser.py`, `analyzer.py`, `app.py`, `answer_generator.py`) are shallowly
embedded below: pandas tables become lists of typed row records, cell-level
numeric coercion (`pd.to_numeric(..., errors='coerce')`) is modelled by
`Option ℚ` fields carrying the coercion result, Python dictionaries keyed by
strings become association lists with in-place-update insertion
(`dictUpsert`), and Python's stable `sorted` becomes a stable insertion sort.
Floating-point arithmetic is modelled by exact rational arithmetic.
-/

namespace Samarth

/-! ## String helpers

Python's `needle in hay` substring test, `str.lower()`, `str.title()` and
`str.strip()` re-implemented over `List Char` so that everything is
kernel-computable. -/

/-- Substring occurrence test on character lists: `listInfix n h` is true iff
`n` occurs contiguously inside `h` (Python `n in h`). -/
def listInfix (needle : List Char) : List Char → Bool
  | [] => needle.isEmpty
  | c :: cs => needle.isPrefixOf (c :: cs) || listInfix needle cs

/-- Python `needle in hay` on strings. -/
def strContains (hay needle : String) : Bool :=
  listInfix needle.data hay.data

/-- Python `str.lower()` (ASCII case folding, as used on the data here). -/
def lowerStr (s : String) : String :=
  String.mk (s.data.map Char.toLower)

/-- Case-insensitive containment:
`hay.lower().contains(needle.lower())` as used by the executors. -/
def strContainsCI (hay needle : String) : Bool :=
  strContains (lowerStr hay) (lowerStr needle)

/-- Python `str.title()` character step: uppercase a letter that follows a
non-letter, lowercase a letter that follows a letter. -/
def titleCh (prevAlpha : Bool) : List Char → List Char
  | [] => []
  | c :: cs =>
    (if c.isAlpha then (if prevAlpha then c.toLower else c.toUpper) else c)
      :: titleCh c.isAlpha cs

/-- Python `str.title()`. -/
def titleStr (s : String) : String := String.mk (titleCh false s.data)

/-- ASCII whitespace recognizer for `str.strip()`. -/
def isWhite (c : Char) : Bool :=
  c == ' ' || c == '\t' || c == '\n' || c == '\r'

/-- Python `str.strip()`. -/
def trimStr (s : String) : String :=
  String.mk (((s.data.dropWhile isWhite).reverse.dropWhile isWhite).reverse)

/-- Python `' '.join(...)` on character lists. -/
def joinWithSpace : List (List Char) → List Char
  | [] => []
  | [x] => x
  | x :: xs => x ++ ' ' :: joinWithSpace xs

/-- First-occurrence deduplication with an accumulator of already-seen
strings; Python's `pandas.unique`, which keeps first occurrences in order. -/
def uniqueAux (seen : List String) : List String → List String
  | [] => []
  | x :: xs => if seen.contains x then uniqueAux seen xs
               else x :: uniqueAux (x :: seen) xs

/-- `pandas.Series.unique` / first-occurrence order dedup. -/
def uniqueFirst (l : List String) : List String := uniqueAux [] l

/-- Python dict assignment `m[k] = v` on an insertion-ordered association
list: updates the value in place if the key exists, else appends. -/
def dictUpsert {α : Type} (k : String) (v : α) :
    List (String × α) → List (String × α)
  | [] => [(k, v)]
  | (k0, v0) :: rest =>
    if k0 = k then (k0, v) :: rest else (k0, v0) :: dictUpsert k v rest

/-! ## Dataset classifier (`data_loader.py`, `load_all_datasets`)

A loaded table is represented by its list of column-name strings; the
classifier inspects the space-joined lowercase column names. -/

/-- The two dataset categories assigned by the loader. -/
inductive DCategory
  | rainfall
  | crop
deriving DecidableEq

/-- `data_loader.py` line 34: keywords whose presence marks a rainfall table. -/
def rainfallKwsList : List String :=
  ["rain", "precipitation", "annual", "monsoon", "subdivision", "jan", "feb", "mar"]

/-- `data_loader.py` line 35: keywords whose presence marks a crop table. -/
def cropKwsList : List String :=
  ["crop", "production", "area", "yield", "district", "kharif", "rabi", "all seasons"]

/-- `data_loader.py` line 56: month keywords used by the fallback branch. -/
def monthKwsList : List String := ["jan", "feb", "mar", "apr"]

/-- `cols_lower = ' '.join([c.lower() for c in df.columns])`. -/
def colsLower (cols : List String) : List Char :=
  joinWithSpace (cols.map fun c => c.data.map Char.toLower)

/-- `is_rainfall` flag of `load_all_datasets`. -/
def rainMatch (cols : List String) : Bool :=
  rainfallKwsList.any fun k => listInfix k.data (colsLower cols)

/-- `is_crop` flag of `load_all_datasets`. -/
def cropMatch (cols : List String) : Bool :=
  cropKwsList.any fun k => listInfix k.data (colsLower cols)

/-- Month-abbreviation test of the fallback branch (line 56). -/
def monthMatch (cols : List String) : Bool :=
  monthKwsList.any fun k => listInfix k.data (colsLower cols)

/-- The classification decision of `load_all_datasets` (lines 46-63):
`if is_rainfall: rainfall elif is_crop: crop else: month-fallback`. -/
def classifyCols (cols : List String) : DCategory :=
  if rainMatch cols then .rainfall
  else if cropMatch cols then .crop
  else if monthMatch cols then .rainfall
  else .crop

/-- Modelled from the claim wording for comparison: a classifier in which the
fallback rule (month columns present or not) decides whenever the column
names match both keyword sets or neither keyword set. -/
def classifyClaimC2 (cols : List String) : DCategory :=
  if rainMatch cols && !cropMatch cols then .rainfall
  else if cropMatch cols && !rainMatch cols then .crop
  else if monthMatch cols then .rainfall
  else .crop

/-! ## Schema resolver (`analyzer.py`, `_find_column`)

`lower_map = {c.lower(): c for c in cols}` is a Python dict literal: building
it with `dictUpsert` keeps one entry per distinct lowercase form, positioned
at its first occurrence but holding the LAST original column having that
lowercase form. -/

/-- `{c.lower(): c for c in cols}` built left to right. -/
def buildLowerMap (cols : List String) : List (String × String) :=
  cols.foldl (fun m c => dictUpsert (lowerStr c) c m) []

/-- The inner loop of `_find_column`: scan `lower_map.items()` and return the
first original column whose lowercase form contains the (lowercased)
candidate keyword. -/
def findInMap (candLower : String) : List (String × String) → Option String
  | [] => none
  | (kl, orig) :: rest =>
    if strContains kl candLower then some orig else findInMap candLower rest

/-- `_find_column(df, candidates)` over the table's column names. -/
def find_column (cols : List String) : List String → Option String
  | [] => none
  | cand :: rest =>
    match findInMap (lowerStr cand) (buildLowerMap cols) with
    | some c => some c
    | none => find_column cols rest

/-- Modelled from the claim wording for comparison: scan columns in declared
order and return the first whose lowercase name contains the candidate
keyword, trying candidates in priority order. -/
def resolveSpec (cols : List String) : List String → Option String
  | [] => none
  | cand :: rest =>
    match cols.find? (fun col => strContains (lowerStr col) (lowerStr cand)) with
    | some col => some col
    | none => resolveSpec cols rest

/-! ## Rule-based query parser (`parser.py`, `fallback_parse_question`)

The parser is a pure function of the question text.  Regular-expression
number extraction (`re.findall(r'\b(\d+)\b', q)`) is modelled by a scan for
maximal digit runs delimited on both sides by a non-word character or the
string boundary (word characters being `[A-Za-z0-9_]`, the runs regex `\b`
refers to). -/

/-- Python regex word character (`\w`). -/
def isWordChar (c : Char) : Bool := c.isAlphanum || c == '_'

/-- Decimal value of a digit run. -/
def natOfDigits (l : List Char) : Nat :=
  l.foldl (fun a c => a * 10 + (c.toNat - 48)) 0

/-- Scanner for `\b(\d+)\b`: collects maximal digit runs that are preceded
and followed by a non-word character or the string boundary.  `building`
carries the run built so far (reversed) together with the flag recording
whether the run started at a word boundary; `prevWord` records whether the
previous character was a word character. -/
def runsAux (building : Option (Bool × List Char)) (prevWord : Bool) :
    List Char → List (List Char)
  | [] =>
    match building with
    | some (ok, run) => if ok then [run.reverse] else []
    | none => []
  | c :: cs =>
    if c.isDigit then
      match building with
      | some (ok, run) => runsAux (some (ok, c :: run)) true cs
      | none => runsAux (some (!prevWord, [c])) true cs
    else
      match building with
      | some (ok, run) =>
        if ok && !isWordChar c then run.reverse :: runsAux none (isWordChar c) cs
        else runsAux none (isWordChar c) cs
      | none => runsAux none (isWordChar c) cs

/-- The boundary-delimited digit runs of a string, in order. -/
def boundedRuns (s : String) : List (List Char) := runsAux none false s.data

/-- `re.findall(r'\b(\d+)\b', q)` as numbers. -/
def extractNumbers (s : String) : List Nat := (boundedRuns s).map natOfDigits

/-- `re.findall(r'\b(19\d{2}|20\d{2})\b', q)`: exactly-four-digit bounded
runs starting `19` or `20`. -/
def extractYears (s : String) : List Nat :=
  ((boundedRuns s).filter fun r =>
    r.length == 4 && (r.take 2 == ['1', '9'] || r.take 2 == ['2', '0'])).map natOfDigits

/-- `parser.py` lines 34-44: the subdivision gazetteer. -/
def subdivisionsList : List String :=
  ["andaman & nicobar islands", "arunachal pradesh", "assam", "bihar",
   "chhattisgarh", "coastal karnataka", "east madhya pradesh", "east rajasthan",
   "east uttar pradesh", "gangetic west bengal", "gujarat", "haryana",
   "himachal pradesh", "jammu & kashmir", "jharkhand", "karnataka",
   "kerala", "konkan & goa", "lakshadweep", "madhya maharashtra",
   "marathwada", "naga mani mizo tripura", "north interior karnataka",
   "odisha", "punjab", "rayalseema", "saurashtra & kutch", "south interior karnataka",
   "sub himalayan west bengal & sikkim", "tamil nadu", "telangana",
   "uttarakhand", "vidarbha", "west madhya pradesh", "west rajasthan", "west uttar pradesh"]

/-- `parser.py` lines 46-53: the district gazetteer. -/
def districtsList : List String :=
  ["bagalkote", "belgaum", "bellary", "bengaluru rural", "bengaluru urban",
   "bidar", "bijapur", "chamarajanagar", "chikkaballapur", "chikkamagaluru",
   "chitradurga", "dakshina kannada", "davanagere", "dharwad", "gadag",
   "gulbarga", "hassan", "haveri", "kodagu", "kolar", "koppal",
   "mandya", "mysore", "raichur", "ramanagara", "shimoga", "tumkur",
   "udupi", "uttara kannada", "vijayapura", "yadgir"]

/-- Location detection (lines 55-58): every gazetteer entry occurring in the
lowercased question, title-cased, in gazetteer order. -/
def detectLocations (qLower : String) : List String :=
  ((subdivisionsList ++ districtsList).filter fun loc => strContains qLower loc).map titleStr

/-- Crop keyword table (lines 61-66), in insertion order. -/
def cropAliases : List (String × List String) :=
  [("maize", ["maize", "corn"]), ("ragi", ["ragi", "finger millet"]),
   ("rice", ["rice", "paddy"]), ("spice", ["spice", "spices"])]

/-- Crop detection (lines 68-71). -/
def detectCrops (qLower : String) : List String :=
  (cropAliases.filter fun p => p.2.any fun a => strContains qLower a).map Prod.fst

/-- Action detection (lines 73-89): keyword-priority chain; the final
`compare` keyword branch coincides with the default. -/
def detectAction (qLower : String) : String :=
  if ["top", "highest", "most", "maximum", "rank"].any (strContains qLower ·) then "top"
  else if ["bottom", "lowest", "least", "minimum"].any (strContains qLower ·) then "bottom"
  else if ["trend", "over time", "decade", "historical pattern"].any (strContains qLower ·) then "trend"
  else if ["correlat", "relationship", "affect", "impact", "influence"].any (strContains qLower ·) then "correlate"
  else if ["policy", "recommend", "suggest", "should", "advise"].any (strContains qLower ·) then "recommend"
  else if ["identify", "find", "which district", "which state"].any (strContains qLower ·) then "identify"
  else "compare"

/-- Time-period detection (lines 98-107), returning the source's string
codes `all`, `last_5`, `last_10`, `last_20`, `range`. -/
def detectTimePeriod (qLower : String) : String :=
  if strContains qLower "last 5 years" || strContains qLower "past 5 years" then "last_5"
  else if strContains qLower "last 10 years" || strContains qLower "past 10 years"
          || strContains qLower "decade" then "last_10"
  else if strContains qLower "last 20 years" || strContains qLower "past 20 years" then "last_20"
  else if strContains qLower "from" && strContains qLower "to" then "range"
  else "all"

/-- `needs_rainfall` keyword test (line 110). -/
def needsRainKw (qLower : String) : Bool :=
  ["rain", "rainfall", "precipitation", "monsoon", "annual"].any (strContains qLower ·)

/-- `needs_crops` keyword test (line 111). -/
def needsCropsKw (qLower : String) : Bool :=
  ["crop", "production", "yield", "area", "maize", "ragi", "rice", "spice", "district"].any
    (strContains qLower ·)

/-- Lowercased, stripped question text (lines 30-31). -/
def lowerQ (question : String) : String := lowerStr (trimStr question)

/-- Lines 118-121: the single infeasibility condition. -/
def infeasibleCond (question : String) : Bool :=
  decide (detectAction (lowerQ question) = "trend")
    && needsCropsKw (lowerQ question) && !needsRainKw (lowerQ question)

/-- Lines 123-125: trend requested over both domains (stays feasible). -/
def bothTrendCond (question : String) : Bool :=
  decide (detectAction (lowerQ question) = "trend")
    && needsCropsKw (lowerQ question) && needsRainKw (lowerQ question)

/-- Lines 127-130: locations present but neither domain keyword matched. -/
def adjustCond (question : String) : Bool :=
  !(detectLocations (lowerQ question)).isEmpty
    && !needsRainKw (lowerQ question) && !needsCropsKw (lowerQ question)

/-- Reasoning string set by the infeasibility branch (line 120). -/
def infeasibleReasoning : String :=
  "Crop datasets have no year column - only snapshot data available. Cannot analyze trends over time for crops."

/-- Rewritten query set by the infeasibility branch (line 121). -/
def infeasibleRewrite : String :=
  "Show current crop production across districts (snapshot data)"

/-- Reasoning string of the both-domain trend branch (line 124). -/
def bothTrendReasoning : String :=
  "Will show rainfall trends over time. Crop data is snapshot only, so will show current production alongside historical rainfall patterns."

/-- Rewritten query of the both-domain trend branch (line 125). -/
def bothTrendRewrite : String :=
  "Compare historical rainfall trends with current crop production levels"

/-- Reasoning string of the location-adjust branch (line 130). -/
def adjustReasoning : String :=
  "Querying both rainfall and crop data for comprehensive analysis"

/-- The structured query produced by the parser (`parsed` dict, lines
132-146).  The presentation-only fields `raw` and `expected_result` are not
modelled. -/
structure ParsedQuery where
  action : String
  locations : List String
  crops : List String
  years : List Nat
  limit : Nat
  timePeriod : String
  needsRainfall : Bool
  needsCrops : Bool
  feasible : Bool
  reasoning : String
  rewrittenQuery : Option String
deriving DecidableEq

/-- `fallback_parse_question` (`parser.py`, lines 28-148).  The three
reasoning-setting branches are pairwise exclusive (the first needs the
crop flag and not the rain flag, the second both flags, the third neither),
so the sequential overwrites of the source are rendered as an if-chain. -/
def fallback_parse_question (question : String) : ParsedQuery :=
  { action := detectAction (lowerQ question)
    locations :=
      if (detectLocations (lowerQ question)).isEmpty then ["all"]
      else detectLocations (lowerQ question)
    crops := detectCrops (lowerQ question)
    years := extractYears (trimStr question)
    limit :=
      match extractNumbers (trimStr question) with
      | [] => 5
      | n :: _ => n
    timePeriod := detectTimePeriod (lowerQ question)
    needsRainfall := if adjustCond question then true else needsRainKw (lowerQ question)
    needsCrops := if adjustCond question then true else needsCropsKw (lowerQ question)
    feasible := !infeasibleCond question
    reasoning :=
      if adjustCond question then adjustReasoning
      else if bothTrendCond question then bothTrendReasoning
      else if infeasibleCond question then infeasibleReasoning
      else ""
    rewrittenQuery :=
      if bothTrendCond question then some bothTrendRewrite
      else if infeasibleCond question then some infeasibleRewrite
      else none }

/-! ## Query executors

Rows are records of the already-resolved columns.  A cell subject to
`pd.to_numeric(..., errors='coerce')` is embedded as the `Option ℚ` result
of that coercion (`none` = NaN); a cell read without coercion is embedded at
its type.  Queries are taken through `QueryView`, the slice of the parsed
dict the executors read. -/

/-- The parsed-query fields read by the executors. -/
structure QueryView where
  locations : List String
  crops : List String
  years : List Nat
  timePeriod : String
deriving DecidableEq

/-- Arithmetic mean of a rational list (pandas `.mean()`); the executors only
apply it to non-empty lists. -/
def meanL (l : List ℚ) : ℚ := l.sum / l.length

/-- pandas `.min()` on a non-empty list (0 as the unreached default). -/
def listMin (l : List ℚ) : ℚ := (l.min?).getD 0

/-- pandas `.max()` on a non-empty list (0 as the unreached default). -/
def listMax (l : List ℚ) : ℚ := (l.max?).getD 0

/-! ### Precipitation executor of `analyzer.py` (`query_rainfall`) -/

/-- A row of a usable rainfall table after column resolution: resolved
location label, raw year cell (as text), its numeric coercion, and the
numeric coercion of the annual column (or its synthesized monthly sum). -/
structure NRow where
  loc : String
  yearRaw : String
  yearNum : Option ℚ
  annualNum : Option ℚ
deriving DecidableEq

/-- `analyzer.py` line 87: `pd.to_numeric(df[year_col], errors='coerce').max()`
over the whole table; `none` models an all-NaN result. -/
def maxYearNum (df : List NRow) : Option ℚ :=
  (df.filterMap NRow.yearNum).max?

/-- `analyzer.py` lines 86-90: the `last_N` window filter applied to the
selected rows `sel`, using the whole-table maximum year; rows whose year
fails numeric coercion compare as NaN and are dropped. -/
def lastNFilter (df sel : List NRow) (span : ℚ) : List NRow :=
  match maxYearNum df with
  | none => sel
  | some m =>
    sel.filter fun r =>
      match r.yearNum with
      | some y => decide (m - span + 1 ≤ y)
      | none => false

/-- `tp.startswith('last_')` and `int(tp.split('_')[1])` (lines 86-89). -/
def tpSpan? (tp : String) : Option ℚ :=
  if ("last_".data).isPrefixOf tp.data then some ((natOfDigits (tp.data.drop 5) : ℚ))
  else none

/-- Per-location statistic of `query_rainfall` (lines 104-111).  The
presentation-only `years` range string is not modelled. -/
structure NStat where
  avg : ℚ
  mn : ℚ
  mx : ℚ
  points : Nat
  source : String
deriving DecidableEq

/-- The body of the per-location loop of `query_rainfall` (lines 70-113):
fuzzy row selection, optional explicit-years filter (string comparison on
the raw year cell), `last_N` window, numeric coercion of the annual column,
and the statistic.  Returns `none` when the location is skipped. -/
def analyzer_query_loc (dsName : String) (df : List NRow) (q : QueryView)
    (loc : String) : Option (String × NStat) :=
  if lowerStr loc = "all" then none
  else
    let sel0 := df.filter fun r => strContainsCI r.loc loc
    if sel0.isEmpty then none
    else
      let sel1 :=
        if q.years.isEmpty then sel0
        else sel0.filter fun r => (q.years.map (fun y => toString y)).contains r.yearRaw
      let sel2 :=
        match tpSpan? q.timePeriod with
        | some span => lastNFilter df sel1 span
        | none => sel1
      if sel2.isEmpty then none
      else
        let vals := sel2.filterMap NRow.annualNum
        if vals.isEmpty then none
        else some (loc, ⟨meanL vals, listMin vals, listMax vals, vals.length, dsName⟩)

/-- `query_rainfall` over one dataset (lines 45-116): candidate locations
are all distinct table values when `'all'` is requested, else the raw parsed
location strings; results are a dict keyed by `str(loc)` — the candidate
string itself. -/
def analyzer_query_rainfall (dsName : String) (df : List NRow) (q : QueryView) :
    List (String × NStat) :=
  let cands :=
    if (q.locations.map lowerStr).contains "all" then uniqueFirst (df.map NRow.loc)
    else q.locations
  cands.foldl
    (fun acc loc =>
      match analyzer_query_loc dsName df q loc with
      | some (k, st) => dictUpsert k st acc
      | none => acc) []

/-! ### Precipitation executor of `app.py` (`query_rainfall_data`) -/

/-- A row of a rainfall table as read by `app.py` (no numeric coercion:
year and annual cells are used at their numeric values). -/
structure ARow where
  loc : String
  year : ℚ
  annual : ℚ
deriving DecidableEq

/-- `app.py` lines 396-402: `df[year_col].max()` over the whole table. -/
def appMaxYear (df : List ARow) : Option ℚ := (df.map ARow.year).max?

/-- `app.py` lines 395-403: the `last_N` filter variant, retaining rows with
year `≥ max_year - span` (no `+ 1`); an empty table yields no rows (NaN
comparisons are false). -/
def appLastFilter (df sel : List ARow) (span : ℚ) : List ARow :=
  match appMaxYear df with
  | none => []
  | some m => sel.filter fun r => decide (m - span ≤ r.year)

/-- `app.py` lines 394-405: time filter dispatch (named window first, else
explicit years). -/
def appTimeFilter (df sel : List ARow) (q : QueryView) : List ARow :=
  if q.timePeriod = "last_5" then appLastFilter df sel 5
  else if q.timePeriod = "last_10" then appLastFilter df sel 10
  else if q.timePeriod = "last_20" then appLastFilter df sel 20
  else if !q.years.isEmpty then
    sel.filter fun r => (q.years.map (fun y => ((y : ℚ)))).contains r.year
  else sel

/-- Per-location statistic of `query_rainfall_data` (lines 410-425); the
presentation-only year-range string is not modelled. -/
structure AStat where
  avg : ℚ
  mx : ℚ
  mn : ℚ
  points : Nat
  source : String
deriving DecidableEq

/-- The body of the per-location loop of `query_rainfall_data` (lines
381-436): exact match in `'all'` mode, fuzzy containment otherwise; the
result key is `actual_name`, the location-column value of the FIRST matched
row. -/
def app_query_loc (dsName : String) (df : List ARow) (q : QueryView)
    (allMode : Bool) (location : String) : Option (String × AStat) :=
  if location = "all" then none
  else
    let sel0 :=
      if allMode then df.filter fun r => decide (r.loc = location)
      else df.filter fun r => strContainsCI r.loc location
    if sel0.isEmpty then none
    else
      match appTimeFilter df sel0 q with
      | [] => none
      | first :: rest =>
        let vals := (first :: rest).map ARow.annual
        some (first.loc,
          ⟨meanL vals, listMax vals, listMin vals, (first :: rest).length, dsName⟩)

/-- `query_rainfall_data` over one dataset (lines 362-440). -/
def app_query_rainfall (dsName : String) (df : List ARow) (q : QueryView) :
    List (String × AStat) :=
  let allMode := decide (q.locations = ["all"]) || q.locations.contains "all"
  let cands :=
    if allMode then uniqueFirst (df.map ARow.loc) else q.locations
  cands.foldl
    (fun acc loc =>
      match app_query_loc dsName df q allMode loc with
      | some (k, st) => dictUpsert k st acc
      | none => acc) []

/-! ### Production executor of `analyzer.py` (`query_crops`) -/

/-- A row of a usable crop table: resolved location label, the crop cell
when a crop column exists, and the numeric coercions of the production and
area cells.  Cells in this model are numeric or null, so the raw-vs-coerced
distinction of the area column collapses. -/
structure CRow where
  loc : String
  cropCell : Option String
  prodNum : Option ℚ
  areaNum : Option ℚ
deriving DecidableEq

/-- A crop table after column resolution: its rows plus whether a crop
column and an area column were resolved. -/
structure CropTable where
  name : String
  rows : List CRow
  hasCropCol : Bool
  hasAreaCol : Bool
deriving DecidableEq

/-- Per-(location, crop) statistic of `query_crops` (lines 180-189). -/
structure PStat where
  location : String
  crop : String
  productionTotal : ℚ
  productionAvg : ℚ
  area : Option ℚ
  points : Nat
  source : String
deriving DecidableEq

/-- A provenance entry of the citation tracker (`analyzer.py` lines 10-17);
the wall-clock timestamp and the free-text description are not modelled. -/
structure Citation where
  dataset : String
  points : Nat
deriving DecidableEq

/-- `query_crops` lines 150-152: crops to iterate — the parsed crops, or a
sample of up to 10 distinct crop values when none were parsed and a crop
column exists. -/
def cropsToUse (t : CropTable) (q : QueryView) : List String :=
  if q.crops.isEmpty && t.hasCropCol then
    (uniqueFirst (t.rows.filterMap CRow.cropCell)).take 10
  else q.crops

/-- The body of the per-(location, crop) loop of `query_crops` (lines
154-196): location containment, crop containment when a crop column exists,
numeric coercion of production, sums and means, optional area sum. -/
def analyzer_query_crop_pair (t : CropTable) (loc crop : String) :
    Option (PStat × Citation) :=
  if lowerStr loc = "all" then none
  else
    let sel :=
      if t.hasCropCol then
        t.rows.filter fun r =>
          strContainsCI r.loc loc &&
            (match r.cropCell with
             | some c => strContainsCI c crop
             | none => false)
      else t.rows.filter fun r => strContainsCI r.loc loc
    if sel.isEmpty then none
    else
      let prods := sel.filterMap CRow.prodNum
      if prods.isEmpty then none
      else
        let areaVals := sel.filterMap CRow.areaNum
        let areaSum :=
          if t.hasAreaCol then
            (if areaVals.isEmpty then none else some areaVals.sum)
          else none
        some (⟨loc, crop, prods.sum, meanL prods, areaSum, prods.length, t.name⟩,
              ⟨t.name, prods.length⟩)

/-- `query_crops` over one table (lines 123-199): results are keyed
`f"{loc}_{crop}"`; one citation is appended per emitted statistic. -/
def analyzer_query_crops (t : CropTable) (q : QueryView) :
    List (String × PStat) × List Citation :=
  let cands :=
    if (q.locations.map lowerStr).contains "all" then uniqueFirst (t.rows.map CRow.loc)
    else q.locations
  let crops := cropsToUse t q
  cands.foldl
    (fun acc loc =>
      crops.foldl
        (fun acc2 crop =>
          match analyzer_query_crop_pair t loc crop with
          | some (st, cit) =>
            (dictUpsert (loc ++ "_" ++ crop) st acc2.1, acc2.2 ++ [cit])
          | none => acc2) acc) ([], [])

/-! ## Cross-domain matcher and correlation

Both correlation paths (`analyzer.py` `combine_and_analyze`, action
`correlate`, lines 258-272; `answer_generator.py`
`_generate_correlation_answer`, lines 265-318) build matched pairs with the
same bidirectional case-insensitive containment test and then compute the
Pearson coefficient `r` of the matched (rainfall, production) series.

`r` is computed by pandas in floating point as `cov / (std_x * std_y)`; the
`(n-1)` normalizations cancel, so `r = c / sqrt(v)` with `c` the centered
product sum, `v = vR * vP` the product of the centered square sums.  Since
`sqrt` leaves ℚ, the embedding carries `(c, vR, vP)` and renders each float
comparison on `r` algebraically: for `v > 0`, `|r| > t ↔ t^2 * v < c^2` and
`r > 0 ↔ 0 < c`; for `v = 0`, `r` is NaN and every float comparison on it is
false, which the guards `0 < v` reproduce. -/

/-- A matched (rainfall, production) pair. -/
structure Matched where
  rainfall : ℚ
  production : ℚ
deriving DecidableEq

/-- A production statistic as consumed by the matcher (its key string plays
no role in matching). -/
structure CropStatC where
  location : String
  crop : String
  productionTotal : ℚ
deriving DecidableEq

/-- The nested matching loops shared by both correlation paths:
`rloc.lower() in cloc.lower() or cloc.lower() in rloc.lower()`. -/
def matchPairs (rain : List (String × ℚ)) (crops : List CropStatC) :
    List Matched :=
  rain.flatMap fun rl =>
    (crops.filter fun c =>
        strContainsCI c.location rl.1 || strContainsCI rl.1 c.location).map
      fun c => ⟨rl.2, c.productionTotal⟩

/-- Mean-centered (rainfall, production) series of the matched pairs. -/
def centered (l : List Matched) : List (ℚ × ℚ) :=
  l.map fun m =>
    (m.rainfall - meanL (l.map Matched.rainfall),
     m.production - meanL (l.map Matched.production))

/-- Centered product sum (numerator of the Pearson coefficient). -/
def covL (l : List Matched) : ℚ := ((centered l).map fun p => p.1 * p.2).sum

/-- Centered square sum of the rainfall series. -/
def varRain (l : List Matched) : ℚ := ((centered l).map fun p => p.1 ^ 2).sum

/-- Centered square sum of the production series. -/
def varProd (l : List Matched) : ℚ := ((centered l).map fun p => p.2 ^ 2).sum

/-- `answer_generator.py` lines 285-290: strength classification
`abs(r) > 0.7` strong, `> 0.4` moderate, else weak, rendered on
`(c, v)` as explained above. -/
def strengthOf (l : List Matched) : String :=
  if 0 < varRain l * varProd l ∧ (49 : ℚ)/100 * (varRain l * varProd l) < covL l ^ 2 then "strong"
  else if 0 < varRain l * varProd l ∧ (4 : ℚ)/25 * (varRain l * varProd l) < covL l ^ 2 then "moderate"
  else "weak"

/-- `answer_generator.py` line 292: `"positive" if r > 0 else "negative"`. -/
def directionOf (l : List Matched) : String :=
  if 0 < varRain l * varProd l ∧ 0 < covL l then "positive" else "negative"

/-- The correlation outcome of `_generate_correlation_answer`: either the
insufficient-data message (which carries the pair count and no coefficient)
or an emitted coefficient with its classification. -/
inductive CorrOutput
  | insufficient (count : Nat)
  | coefficient (c vR vP : ℚ) (strength direction : String)
deriving DecidableEq

/-- `_generate_correlation_answer` (lines 265-318): at least 3 matched pairs
produce the coefficient and its classification, fewer report insufficient
data. -/
def generate_correlation (rain : List (String × ℚ)) (crops : List CropStatC) :
    CorrOutput :=
  let m := matchPairs rain crops
  if 3 ≤ m.length then
    .coefficient (covL m) (varRain m) (varProd m) (strengthOf m) (directionOf m)
  else .insufficient m.length

/-- The correlation outcome of `analyzer.py` `combine_and_analyze` (lines
258-272): a coefficient value or the insufficient-pairs message. -/
inductive ACorrOutput
  | insufficient
  | value (c vR vP : ℚ)
deriving DecidableEq

/-- `combine_and_analyze`, `correlate` branch (lines 258-272): ANY non-empty
list of matched pairs yields the numeric coefficient (`if rows:`); only zero
pairs report insufficient data. -/
def analyzer_correlate (rain : List (String × ℚ)) (crops : List CropStatC) :
    ACorrOutput :=
  let m := matchPairs rain crops
  if m.isEmpty then .insufficient
  else .value (covL m) (varRain m) (varProd m)

/-! ## Ranking (`analyzer.py` lines 212-227, `answer_generator.py` lines
83-139, `app.py` lines 599-629)

All ranking paths are `sorted(results.items(), key=primary metric,
reverse=(action=='top'))[:limit]` on an insertion-ordered dict.  Python's
`sorted` is a stable sort; with `reverse=True` it compares in reverse but
still keeps equal elements in original order.  It is embedded as a stable
insertion sort parameterized by the strict must-precede test. -/

/-- Insert `a` after every element that must strictly precede it. -/
def sInsert (r : α → α → Bool) (a : α) : List α → List α
  | [] => [a]
  | b :: l => if r b a then b :: sInsert r a l else a :: b :: l

/-- Stable sort: earlier input elements are inserted into the sorted tail
and pass every equal element, so ties keep insertion order. -/
def sSort (r : α → α → Bool) : List α → List α
  | [] => []
  | a :: l => sInsert r a (sSort r l)

/-- The must-strictly-precede test of `sorted(key=keyf, reverse=desc)`. -/
def rankRel (keyf : α → ℚ) (desc : Bool) (x y : α) : Bool :=
  if desc then decide (keyf y < keyf x) else decide (keyf x < keyf y)

/-- `sorted(items, key=keyf, reverse=desc)[:limit]`. -/
def rankBy (keyf : α → ℚ) (desc : Bool) (limit : Nat) (l : List α) : List α :=
  (sSort (rankRel keyf desc) l).take limit

/-- Rainfall ranking (`analyzer.py` line 215): key is `rainfall_avg`,
descending iff the action is `top`. -/
def rainfall_rank (results : List (String × ℚ)) (action : String) (limit : Nat) :
    List (String × ℚ) :=
  rankBy Prod.snd (decide (action = "top")) limit results

/-- Crop ranking (`analyzer.py` line 223): key is `production_total`. -/
def crop_rank (results : List (String × PStat)) (action : String) (limit : Nat) :
    List (String × PStat) :=
  rankBy (fun p => p.2.productionTotal) (decide (action = "top")) limit results

/-! ## Confidence scorer (`app.py`, `calculate_confidence_score`,
lines 522-588) -/

/-- A rainfall result as read by the scorer. -/
structure ConfRain where
  points : Nat
  source : String
deriving DecidableEq

/-- A crop result as read by the scorer. -/
structure ConfCrop where
  location : String
  points : Nat
  source : String
deriving DecidableEq

/-- A metadata entry of the `app.py` loader (name and quality tier). -/
structure MetaEntry where
  name : String
  quality : String
deriving DecidableEq

/-- Quality tier to points (lines 560-567). -/
def qualityScore (q : String) : ℚ :=
  if q = "high" then 20 else if q = "medium" then 15 else 10

/-- Factor 1 (lines 528-538): completeness, up to 40 for specific-location
queries, 35 flat otherwise. -/
def completenessFactor (rain : List ConfRain) (crops : List ConfCrop)
    (locations : List String) : ℚ :=
  let requested := (locations.filter fun l => decide (l ≠ "all")).length
  let found := rain.length + (uniqueFirst (crops.map ConfCrop.location)).length
  if 0 < requested then
    (min 100 ((found : ℚ) / (requested : ℚ) * 100)) / 100 * 40
  else 35

/-- Factor 2 (lines 540-552): volume tiers 20/15/10. -/
def volumeFactor (rain : List ConfRain) (crops : List ConfCrop) : ℚ :=
  let totalPoints := (rain.map ConfRain.points).sum + (crops.map ConfCrop.points).sum
  if 1000 < totalPoints then 20 else if 100 < totalPoints then 15 else 10

/-- `list(set(...))` of the sources used; only cardinality and membership
are consumed, so first-occurrence dedup represents the Python set. -/
def sourcesUsed (rain : List ConfRain) (crops : List ConfCrop) : List String :=
  uniqueFirst (rain.map ConfRain.source ++ crops.map ConfCrop.source)

/-- Factor 3 (lines 554-573): mean of the per-source quality points over the
sources present in metadata, else 15. -/
def qualityFactor (rain : List ConfRain) (crops : List ConfCrop)
    (metadata : List MetaEntry) : ℚ :=
  let qs := ((sourcesUsed rain crops).filterMap fun s =>
    (metadata.find? fun m => decide (m.name = s)).map MetaEntry.quality).map qualityScore
  if qs.isEmpty then 15 else qs.sum / qs.length

/-- Factor 4 (lines 575-581): multi-source bonus. -/
def diversityFactor (rain : List ConfRain) (crops : List ConfCrop) : ℚ :=
  if 1 < (sourcesUsed rain crops).length then 10
  else if (sourcesUsed rain crops).length = 1 then 5
  else 0

/-- Factor 5 (lines 583-586): cross-domain bonus. -/
def crossFactor (rain : List ConfRain) (crops : List ConfCrop) : ℚ :=
  if !rain.isEmpty && !crops.isEmpty then 10 else 0

/-- `calculate_confidence_score` (lines 522-588): the additive factor model,
truncated to an integer (`int()` on the non-negative float) and capped at
99.  The factor-description strings are presentation-only and not
modelled. -/
def calculate_confidence_score (rain : List ConfRain) (crops : List ConfCrop)
    (locations : List String) (metadata : List MetaEntry) : ℤ :=
  min 99 ⌊completenessFactor rain crops locations + volumeFactor rain crops
    + qualityFactor rain crops metadata + diversityFactor rain crops
    + crossFactor rain crops⌋

/-! ## Helper lemmas -/

/-- A fold whose step ignores the element is constant. -/
theorem foldl_const {α β : Type} (l : List α) (init : β) :
    l.foldl (fun a _ => a) init = init := by
  induction l generalizing init with
  | nil => rfl
  | cons x t ih => exact ih init

/-- A scan started outside a digit run stays empty on digit-free input. -/
theorem runsAux_eq_nil (l : List Char) (h : ∀ c ∈ l, c.isDigit = false) :
    ∀ w, runsAux none w l = [] := by
  induction l with
  | nil => intro w; rfl
  | cons c cs ih =>
    intro w
    have hc : c.isDigit = false := h c (by simp)
    simp only [runsAux, hc, Bool.false_eq_true, if_false]
    exact ih (fun x hx => h x (by simp [hx])) _

/-- `extractNumbers` is empty on digit-free text. -/
theorem extractNumbers_eq_nil (s : String) (h : ∀ c ∈ s.data, c.isDigit = false) :
    extractNumbers s = [] := by
  unfold extractNumbers boundedRuns
  rw [runsAux_eq_nil s.data h false]
  rfl

/-! ## C2 — dataset classifier -/

/-- C2 (amended): the classifier is total — it assigns exactly one of the
two categories — and its decision structure is: a rainfall-keyword match
wins outright (even when the crop keywords also match); a crop-keyword
match wins only when the rainfall keywords did not match; the
month-abbreviation fallback decides only when neither keyword set
matched. -/
theorem c2_classifier (cols : List String) :
    (classifyCols cols = .rainfall ∨ classifyCols cols = .crop) ∧
    (rainMatch cols = true → classifyCols cols = .rainfall) ∧
    (rainMatch cols = false → cropMatch cols = true → classifyCols cols = .crop) ∧
    (rainMatch cols = false → cropMatch cols = false →
      classifyCols cols = (if monthMatch cols then .rainfall else .crop)) := by
  unfold classifyCols
  by_cases h1 : rainMatch cols <;> by_cases h2 : cropMatch cols <;>
    by_cases h3 : monthMatch cols <;> simp [h1, h2, h3]

/-- C2 witness: a concrete rainfall-keyword table is classified
precipitation by the rainfall branch. -/
theorem c2_witness : classifyCols ["SUBDIVISION", "YEAR", "JAN"] = .rainfall :=
  (c2_classifier ["SUBDIVISION", "YEAR", "JAN"]).2.1 (by decide)

/-- C2 counterexample: the columns `["Rainfall", "Crop"]` match both keyword
sets and contain no month-abbreviation column, so the claimed fallback rule
would classify them as production, yet the code classifies them as
precipitation (the rainfall branch is checked first). -/
theorem c2_counterexample :
    rainMatch ["Rainfall", "Crop"] = true ∧
    cropMatch ["Rainfall", "Crop"] = true ∧
    monthMatch ["Rainfall", "Crop"] = false ∧
    classifyCols ["Rainfall", "Crop"] = .rainfall ∧
    classifyClaimC2 ["Rainfall", "Crop"] = .crop ∧
    DCategory.rainfall ≠ DCategory.crop := by decide

/-! ## C5 — parsed limit -/

/-- C5 (amended): the parsed limit is the first boundary-delimited integer
literal of the (stripped) question text, and it defaults to 5 whenever the
text contains no digits — regardless of the parsed action. -/
theorem c5_limit (question : String) :
    ((fallback_parse_question question).limit =
      match extractNumbers (trimStr question) with
      | [] => 5
      | n :: _ => n) ∧
    ((∀ c ∈ (trimStr question).data, c.isDigit = false) →
      (fallback_parse_question question).limit = 5) := by
  refine ⟨rfl, fun h => ?_⟩
  show (match extractNumbers (trimStr question) with | [] => 5 | n :: _ => n) = 5
  rw [extractNumbers_eq_nil _ h]

/-- C5 witness: a digit-free question gets the default limit 5. -/
theorem c5_witness : (fallback_parse_question "show ragi production").limit = 5 :=
  (c5_limit "show ragi production").2 (by decide)

/-- C5 counterexample: `"compare rainfall in punjab"` contains no integer
literal and parses to the non-ranking action `compare`, yet its limit is 5,
not the 10 the claim requires for non-ranking actions. -/
theorem c5_counterexample :
    (fallback_parse_question "compare rainfall in punjab").action = "compare" ∧
    extractNumbers (trimStr "compare rainfall in punjab") = [] ∧
    (fallback_parse_question "compare rainfall in punjab").limit = 5 ∧
    (5 : Nat) ≠ 10 := by decide

/-! ## C6 — feasibility rule -/

/-- C6: a parsed question is infeasible exactly when its action is `trend`
and it needs crop data but not rainfall data; in that case the reasoning is
the fixed string about crop datasets having no year column (snapshot-only
data) and a fixed non-empty rewritten query is supplied; every other parse
is feasible. -/
theorem c6_feasibility (question : String) :
    ((fallback_parse_question question).feasible = false ↔
      ((fallback_parse_question question).action = "trend" ∧
       (fallback_parse_question question).needsCrops = true ∧
       (fallback_parse_question question).needsRainfall = false)) ∧
    ((fallback_parse_question question).feasible = false →
      (fallback_parse_question question).reasoning = infeasibleReasoning ∧
      strContains infeasibleReasoning "no year column" = true ∧
      (fallback_parse_question question).rewrittenQuery = some infeasibleRewrite ∧
      infeasibleRewrite ≠ "") := by
  have hcontains : strContains infeasibleReasoning "no year column" = true := by decide
  have hne : infeasibleRewrite ≠ "" := by decide
  simp only [fallback_parse_question]
  cases hnc : needsCropsKw (lowerQ question) <;>
    cases hnr : needsRainKw (lowerQ question) <;>
    by_cases ha : detectAction (lowerQ question) = "trend" <;>
    cases hL : (detectLocations (lowerQ question)).isEmpty <;>
    simp [infeasibleCond, adjustCond, bothTrendCond, ha, hnc, hnr, hL, hcontains, hne]

/-- C6 witness: `"trend in maize production"` is parsed infeasible with the
fixed reasoning and rewrite. -/
theorem c6_witness :
    (fallback_parse_question "trend in maize production").reasoning = infeasibleReasoning ∧
    strContains infeasibleReasoning "no year column" = true ∧
    (fallback_parse_question "trend in maize production").rewrittenQuery
      = some infeasibleRewrite ∧
    infeasibleRewrite ≠ "" :=
  (c6_feasibility "trend in maize production").2 (by decide)

/-! ## C10 — production tables without a crop column -/

/-- C10: a production table with no resolved crop column, queried with no
parsed crops, emits no statistic and no citation — the crop iteration list
is empty, so the per-location loop body never runs, even when rows match
the location and the production column coerces to numbers. -/
theorem c10_no_crop_column (t : CropTable) (q : QueryView)
    (hc : t.hasCropCol = false) (hq : q.crops = []) :
    analyzer_query_crops t q = ([], []) := by
  unfold analyzer_query_crops cropsToUse
  simp only [hc, hq, Bool.and_false, List.isEmpty_nil, Bool.false_eq_true, if_false,
    List.foldl_nil]
  exact foldl_const _ _

/-- C10 witness: a concrete no-crop-column table whose single row matches
the queried location and has a numeric production cell still yields no
statistic and no citation. -/
theorem c10_witness :
    strContainsCI "Bengaluru Urban" "Bengaluru" = true ∧
    ([(⟨"Bengaluru Urban", none, some 120, none⟩ : CRow)].filterMap CRow.prodNum ≠ []) ∧
    analyzer_query_crops
      ⟨"spices.csv", [⟨"Bengaluru Urban", none, some 120, none⟩], false, false⟩
      ⟨["Bengaluru"], [], [], "all"⟩ = ([], []) :=
  ⟨by decide, by decide, c10_no_crop_column _ _ rfl rfl⟩

/-! ## C7 — confidence score bounds -/

/-- Quality points are non-negative. -/
theorem qualityScore_nonneg (q : String) : 0 ≤ qualityScore q := by
  unfold qualityScore; split_ifs <;> norm_num

/-- The completeness factor is non-negative. -/
theorem completenessFactor_nonneg (rain : List ConfRain) (crops : List ConfCrop)
    (locations : List String) : 0 ≤ completenessFactor rain crops locations := by
  unfold completenessFactor
  dsimp only
  split_ifs with h
  · refine mul_nonneg (div_nonneg (le_min (by norm_num) ?_) (by norm_num)) (by norm_num)
    positivity
  · norm_num

/-- The volume factor is non-negative. -/
theorem volumeFactor_nonneg (rain : List ConfRain) (crops : List ConfCrop) :
    0 ≤ volumeFactor rain crops := by
  unfold volumeFactor; dsimp only; split_ifs <;> norm_num

/-- The quality factor is non-negative. -/
theorem qualityFactor_nonneg (rain : List ConfRain) (crops : List ConfCrop)
    (metadata : List MetaEntry) : 0 ≤ qualityFactor rain crops metadata := by
  unfold qualityFactor
  dsimp only
  split_ifs with h
  · norm_num
  · refine div_nonneg (List.sum_nonneg ?_) (by positivity)
    intro x hx
    simp only [List.mem_map] at hx
    obtain ⟨s, _, rfl⟩ := hx
    exact qualityScore_nonneg s

/-- The diversity factor is non-negative. -/
theorem diversityFactor_nonneg (rain : List ConfRain) (crops : List ConfCrop) :
    0 ≤ diversityFactor rain crops := by
  unfold diversityFactor; split_ifs <;> norm_num

/-- The cross-domain factor is non-negative. -/
theorem crossFactor_nonneg (rain : List ConfRain) (crops : List ConfCrop) :
    0 ≤ crossFactor rain crops := by
  unfold crossFactor; split_ifs <;> norm_num

/-- C7: for every combination of result sets, query locations and metadata,
the confidence score is an integer in [0, 99]: every additive factor is
non-negative, so the floor is non-negative, and the final cap bounds the
score by 99 regardless of input magnitude. -/
theorem c7_confidence (rain : List ConfRain) (crops : List ConfCrop)
    (locations : List String) (metadata : List MetaEntry) :
    0 ≤ calculate_confidence_score rain crops locations metadata ∧
    calculate_confidence_score rain crops locations metadata ≤ 99 := by
  constructor
  · unfold calculate_confidence_score
    refine le_min (by norm_num) (Int.floor_nonneg.mpr ?_)
    have h1 := completenessFactor_nonneg rain crops locations
    have h2 := volumeFactor_nonneg rain crops
    have h3 := qualityFactor_nonneg rain crops metadata
    have h4 := diversityFactor_nonneg rain crops
    have h5 := crossFactor_nonneg rain crops
    linarith
  · exact min_le_left _ _

/-! ## C1 — correlation -/

/-- Discrete Cauchy–Schwarz over paired rational lists. -/
theorem list_cauchy_schwarz (l : List (ℚ × ℚ)) :
    ((l.map fun p => p.1 * p.2).sum) ^ 2
      ≤ ((l.map fun p => p.1 ^ 2).sum) * ((l.map fun p => p.2 ^ 2).sum) := by
  induction l with
  | nil => simp
  | cons p t ih =>
    have hA : 0 ≤ (t.map fun p => p.1 ^ 2).sum := by
      refine List.sum_nonneg ?_
      intro x hx
      simp only [List.mem_map] at hx
      obtain ⟨q, _, rfl⟩ := hx
      positivity
    have hB : 0 ≤ (t.map fun p => p.2 ^ 2).sum := by
      refine List.sum_nonneg ?_
      intro x hx
      simp only [List.mem_map] at hx
      obtain ⟨q, _, rfl⟩ := hx
      positivity
    simp only [List.map_cons, List.sum_cons]
    rcases eq_or_lt_of_le hB with hB0 | hBpos
    · have hS0 : (t.map fun p => p.1 * p.2).sum = 0 := by
        nlinarith [sq_nonneg (t.map fun p => p.1 * p.2).sum]
      rw [hS0, ← hB0]
      nlinarith [mul_nonneg hA (sq_nonneg p.2)]
    · nlinarith [sq_nonneg (p.1 * (t.map fun p => p.2 ^ 2).sum
          - p.2 * (t.map fun p => p.1 * p.2).sum),
        mul_nonneg (add_nonneg (sq_nonneg p.2) hB) (sub_nonneg.mpr ih)]

/-- C1 (amended): in the `AnswerGenerator` path, fewer than 3 matched pairs
produce the insufficient-data report, which carries no coefficient, while 3
or more produce the Pearson coefficient together with its strength and
direction classification; whenever the coefficient is defined (both centered
square sums positive) it lies in [-1, 1], which over ℚ is the Cauchy-Schwarz
inequality `covL² ≤ varRain · varProd` (proved unconditionally).  In the
`analyzer.py` dispatcher path, ANY non-empty list of matched pairs — 1 or 2
included — already emits the numeric coefficient. -/
theorem c1_correlation (rain : List (String × ℚ)) (crops : List CropStatC) :
    ((matchPairs rain crops).length < 3 →
      generate_correlation rain crops = .insufficient (matchPairs rain crops).length) ∧
    (3 ≤ (matchPairs rain crops).length →
      generate_correlation rain crops =
        .coefficient (covL (matchPairs rain crops)) (varRain (matchPairs rain crops))
          (varProd (matchPairs rain crops)) (strengthOf (matchPairs rain crops))
          (directionOf (matchPairs rain crops))) ∧
    (covL (matchPairs rain crops)) ^ 2
        ≤ varRain (matchPairs rain crops) * varProd (matchPairs rain crops) ∧
    (matchPairs rain crops ≠ [] →
      analyzer_correlate rain crops =
        .value (covL (matchPairs rain crops)) (varRain (matchPairs rain crops))
          (varProd (matchPairs rain crops))) := by
  refine ⟨fun h => ?_, fun h => ?_, ?_, fun h => ?_⟩
  · unfold generate_correlation
    rw [if_neg (by omega)]
  · unfold generate_correlation
    rw [if_pos h]
  · exact list_cauchy_schwarz (centered (matchPairs rain crops))
  · unfold analyzer_correlate
    rw [if_neg (by simpa [List.isEmpty_iff] using h)]

/-- C1 witness: three concrete matched pairs make the `AnswerGenerator`
path emit the classified coefficient. -/
theorem c1_witness :
    3 ≤ (matchPairs [("A", (1 : ℚ)), ("B", 2), ("C", 3)]
      [⟨"A", "m", 10⟩, ⟨"B", "m", 20⟩, ⟨"C", "m", 30⟩]).length ∧
    generate_correlation [("A", (1 : ℚ)), ("B", 2), ("C", 3)]
      [⟨"A", "m", 10⟩, ⟨"B", "m", 20⟩, ⟨"C", "m", 30⟩] =
      .coefficient
        (covL (matchPairs [("A", (1 : ℚ)), ("B", 2), ("C", 3)]
          [⟨"A", "m", 10⟩, ⟨"B", "m", 20⟩, ⟨"C", "m", 30⟩]))
        (varRain (matchPairs [("A", (1 : ℚ)), ("B", 2), ("C", 3)]
          [⟨"A", "m", 10⟩, ⟨"B", "m", 20⟩, ⟨"C", "m", 30⟩]))
        (varProd (matchPairs [("A", (1 : ℚ)), ("B", 2), ("C", 3)]
          [⟨"A", "m", 10⟩, ⟨"B", "m", 20⟩, ⟨"C", "m", 30⟩]))
        (strengthOf (matchPairs [("A", (1 : ℚ)), ("B", 2), ("C", 3)]
          [⟨"A", "m", 10⟩, ⟨"B", "m", 20⟩, ⟨"C", "m", 30⟩]))
        (directionOf (matchPairs [("A", (1 : ℚ)), ("B", 2), ("C", 3)]
          [⟨"A", "m", 10⟩, ⟨"B", "m", 20⟩, ⟨"C", "m", 30⟩])) :=
  ⟨by decide, (c1_correlation _ _).2.1 (by decide)⟩

/-- C1 counterexample: two matched locality pairs — fewer than 3 — still
make the `analyzer.py` dispatcher emit a numeric coefficient instead of the
insufficient-data report the claim requires. -/
theorem c1_counterexample :
    (matchPairs [("Punjab", (500 : ℚ)), ("Kerala", 3000)]
      [⟨"Punjab", "maize", 100⟩, ⟨"Kerala", "rice", 900⟩]).length = 2 ∧
    analyzer_correlate [("Punjab", (500 : ℚ)), ("Kerala", 3000)]
      [⟨"Punjab", "maize", 100⟩, ⟨"Kerala", "rice", 900⟩] ≠ .insufficient := by decide

/-! ## C3 — last-N-years window -/

/-- C3 (amended): the `analyzer.py` precipitation executor retains, from the
selected rows, exactly those whose coerced year satisfies
`year ≥ max_year − span + 1` (rows failing numeric coercion are dropped),
where `max_year` is the maximum coerced year over the whole table.  The
`app.py` variant of the executor instead retains rows with
`year ≥ max_year − span`; see the counterexample. -/
theorem c3_last_n (df sel : List NRow) (span m : ℚ)
    (hm : maxYearNum df = some m) (r : NRow) :
    r ∈ lastNFilter df sel span ↔
      r ∈ sel ∧ ∃ y, r.yearNum = some y ∧ m - span + 1 ≤ y := by
  unfold lastNFilter
  rw [hm]
  rw [List.mem_filter]
  rcases hy : r.yearNum with _ | y <;> simp [hy]

/-- C3 witness: with a one-row table whose year coerces to 2017 and span 5,
the filter keeps the row, whose year meets `2017 − 5 + 1`. -/
theorem c3_witness :
    (⟨"P", "2017", some 2017, some 100⟩ : NRow) ∈
      lastNFilter [⟨"P", "2017", some 2017, some 100⟩]
        [⟨"P", "2017", some 2017, some 100⟩] 5 ↔
      ((⟨"P", "2017", some 2017, some 100⟩ : NRow) ∈
        [(⟨"P", "2017", some 2017, some 100⟩ : NRow)] ∧
       ∃ y, (⟨"P", "2017", some 2017, some 100⟩ : NRow).yearNum = some y ∧
         (2017 : ℚ) - 5 + 1 ≤ y) :=
  c3_last_n [⟨"P", "2017", some 2017, some 100⟩]
    [⟨"P", "2017", some 2017, some 100⟩] 5 2017 rfl _

/-- C3 counterexample: the `app.py` executor, on a table with years 2012 and
2017 and the `last_5` window, retains the 2012 row although
`2012 < 2017 − 5 + 1` — it implements `max_year − span`, not the claimed
`max_year − span + 1`. -/
theorem c3_counterexample :
    (⟨"Punjab", 2012, 700⟩ : ARow) ∈
      appLastFilter [⟨"Punjab", 2012, 700⟩, ⟨"Punjab", 2017, 800⟩]
        [⟨"Punjab", 2012, 700⟩, ⟨"Punjab", 2017, 800⟩] 5 ∧
    appMaxYear [⟨"Punjab", 2012, 700⟩, ⟨"Punjab", 2017, 800⟩] = some 2017 ∧
    ¬ ((2017 : ℚ) - 5 + 1 ≤ 2012) := by
  have hmax : appMaxYear [⟨"Punjab", 2012, 700⟩, ⟨"Punjab", 2017, 800⟩]
      = some 2017 := by
    simp [appMaxYear, List.max?_cons', max_def]
    norm_num
  refine ⟨?_, hmax, by norm_num⟩
  unfold appLastFilter
  rw [hmax]
  rw [List.mem_filter]
  refine ⟨by simp, ?_⟩
  norm_num

/-! ## C4 — stable ranking -/

/-- Inserting permutes: the result is the element consed on. -/
theorem sInsert_perm {α : Type} (r : α → α → Bool) (a : α) (l : List α) :
    (sInsert r a l).Perm (a :: l) := by
  induction l with
  | nil => exact List.Perm.refl _
  | cons b t ih =>
    unfold sInsert
    split
    · exact (ih.cons b).trans (List.Perm.swap a b t)
    · exact List.Perm.refl _

/-- Members of an insertion are the new element or old members. -/
theorem mem_sInsert {α : Type} {r : α → α → Bool} {a c : α} {l : List α}
    (h : c ∈ sInsert r a l) : c = a ∨ c ∈ l := by
  have := (sInsert_perm r a l).mem_iff.mp h
  simpa using this

/-- The stable sort permutes its input. -/
theorem sSort_perm {α : Type} (r : α → α → Bool) (l : List α) :
    (sSort r l).Perm l := by
  induction l with
  | nil => exact List.Perm.refl _
  | cons a t ih => exact (sInsert_perm r a (sSort r t)).trans (ih.cons a)

/-- Insertion preserves sortedness (no later element strictly precedes an
earlier one), given asymmetry and negative transitivity of the
must-precede test. -/
theorem sInsert_pairwise {α : Type} (r : α → α → Bool)
    (hA : ∀ x y, r x y = true → r y x = false)
    (hT : ∀ x y z, r x y = false → r y z = false → r x z = false)
    (a : α) (l : List α) (h : l.Pairwise fun x y => r y x = false) :
    (sInsert r a l).Pairwise fun x y => r y x = false := by
  induction l with
  | nil => simp [sInsert]
  | cons b t ih =>
    rcases List.pairwise_cons.mp h with ⟨hb, ht⟩
    unfold sInsert
    by_cases hr : r b a
    · rw [if_pos hr]
      refine List.pairwise_cons.mpr ⟨?_, ih ht⟩
      intro c hc
      rcases mem_sInsert hc with rfl | hct
      · exact hA b c hr
      · exact hb c hct
    · rw [if_neg hr]
      have hba : r b a = false := by
        simpa using hr
      refine List.pairwise_cons.mpr ⟨?_, h⟩
      intro c hc
      rcases List.mem_cons.mp hc with rfl | hct
      · exact hba
      · exact hT c b a (hb c hct) hba

/-- The stable sort is sorted. -/
theorem sSort_pairwise {α : Type} (r : α → α → Bool)
    (hA : ∀ x y, r x y = true → r y x = false)
    (hT : ∀ x y z, r x y = false → r y z = false → r x z = false)
    (l : List α) : (sSort r l).Pairwise fun x y => r y x = false := by
  induction l with
  | nil => simp [sSort]
  | cons a t ih => exact sInsert_pairwise r hA hT a _ ih

/-- Stability at the insertion step: filtering by a predicate on which the
must-precede test never fires commutes with insertion. -/
theorem sInsert_filter {α : Type} (r : α → α → Bool) (p : α → Bool)
    (hp : ∀ x y, p x = true → p y = true → r x y = false)
    (a : α) (l : List α) :
    (sInsert r a l).filter p = ((a :: l).filter p : List α) := by
  induction l with
  | nil => rfl
  | cons b t ih =>
    unfold sInsert
    by_cases hr : r b a
    · rw [if_pos hr]
      by_cases hpb : p b
      · have hpa : p a = false := by
          rcases hpa : p a with _ | _
          · rfl
          · rw [hp b a hpb hpa] at hr
            exact (Bool.false_ne_true hr).elim
        simp only [List.filter_cons, hpb, hpa, if_true, if_false, ih]
        simp [List.filter_cons, hpa, hpb]
      · simp only [List.filter_cons, hpb, if_false, ih]
        simp [List.filter_cons, hpb]
    · rw [if_neg hr]

/-- Stability of the stable sort: for any key-class predicate the filtered
subsequence is unchanged, i.e. tied entries keep their insertion order. -/
theorem sSort_filter {α : Type} (r : α → α → Bool) (p : α → Bool)
    (hp : ∀ x y, p x = true → p y = true → r x y = false)
    (l : List α) : (sSort r l).filter p = l.filter p := by
  induction l with
  | nil => rfl
  | cons a t ih =>
    show (sInsert r a (sSort r t)).filter p = _
    rw [sInsert_filter r p hp a (sSort r t)]
    simp [List.filter_cons, ih]

/-- The must-precede test of the rankings is asymmetric. -/
theorem rankRel_asym {α : Type} (keyf : α → ℚ) (desc : Bool) :
    ∀ x y, rankRel keyf desc x y = true → rankRel keyf desc y x = false := by
  intro x y h
  cases desc <;> simp [rankRel] at h ⊢ <;> exact le_of_lt h

/-- The must-precede test of the rankings is negatively transitive. -/
theorem rankRel_negtrans {α : Type} (keyf : α → ℚ) (desc : Bool) :
    ∀ x y z, rankRel keyf desc x y = false → rankRel keyf desc y z = false →
      rankRel keyf desc x z = false := by
  intro x y z h1 h2
  cases desc <;> simp [rankRel] at h1 h2 ⊢ <;> linarith

/-- Equal keys never strictly precede each other. -/
theorem rankRel_eq_false_of_key_eq {α : Type} (keyf : α → ℚ) (desc : Bool)
    (v : ℚ) : ∀ x y, decide (keyf x = v) = true → decide (keyf y = v) = true →
      rankRel keyf desc x y = false := by
  intro x y hx hy
  rw [decide_eq_true_eq] at hx hy
  cases desc <;> simp [rankRel, hx, hy]

/-- C4: every ranking output (`rainfall_rank` and `crop_rank` are the
instances `rankBy Prod.snd` and `rankBy production_total` of this statement)
is the truncation to `limit` of a permutation of the result entries that is
sorted by the key — descending when `desc` (action `top`), ascending
otherwise (action `bottom`) — and in which the entries of every key class
appear exactly as in the input, i.e. ties keep insertion order. -/
theorem c4_ranking {α : Type} (keyf : α → ℚ) (desc : Bool) (limit : Nat)
    (l : List α) :
    rankBy keyf desc limit l = (sSort (rankRel keyf desc) l).take limit ∧
    (sSort (rankRel keyf desc) l).Perm l ∧
    (desc = true → (sSort (rankRel keyf desc) l).Pairwise fun x y => keyf y ≤ keyf x) ∧
    (desc = false → (sSort (rankRel keyf desc) l).Pairwise fun x y => keyf x ≤ keyf y) ∧
    ∀ v : ℚ, (sSort (rankRel keyf desc) l).filter (fun x => decide (keyf x = v))
      = l.filter fun x => decide (keyf x = v) := by
  refine ⟨rfl, sSort_perm _ _, fun hd => ?_, fun hd => ?_, fun v => ?_⟩
  · subst hd
    refine (sSort_pairwise _ (rankRel_asym keyf true) (rankRel_negtrans keyf true) l).imp ?_
    intro x y hxy
    simpa [rankRel] using hxy
  · subst hd
    refine (sSort_pairwise _ (rankRel_asym keyf false) (rankRel_negtrans keyf false) l).imp ?_
    intro x y hxy
    simpa [rankRel] using hxy
  · exact sSort_filter _ _ (rankRel_eq_false_of_key_eq keyf desc v) l

/-- C4 witness: the spec's own example — means {A:500, B:1000, C:1000,
D:200}, action `top`, limit 2 — returns B then C, the tie in insertion
order, and the underlying sort of that instance is pairwise descending. -/
theorem c4_witness :
    rainfall_rank [("A", (500 : ℚ)), ("B", 1000), ("C", 1000), ("D", 200)] "top" 2
      = [("B", 1000), ("C", 1000)] ∧
    (sSort (rankRel (Prod.snd : String × ℚ → ℚ) true)
        [("A", (500 : ℚ)), ("B", 1000), ("C", 1000), ("D", 200)]).Pairwise
      (fun x y => x.2 ≥ y.2) :=
  ⟨by decide,
   (c4_ranking (Prod.snd : String × ℚ → ℚ) true 2
     [("A", (500 : ℚ)), ("B", 1000), ("C", 1000), ("D", 200)]).2.2.1 rfl⟩

/-! ## C8 — schema resolver -/

/-- Upserting a fresh key appends. -/
theorem dictUpsert_notMem {α : Type} (k : String) (v : α) (m : List (String × α))
    (h : ∀ p ∈ m, p.1 ≠ k) : dictUpsert k v m = m ++ [(k, v)] := by
  induction m with
  | nil => rfl
  | cons q rest ih =>
    obtain ⟨k0, v0⟩ := q
    have hk0 : k0 ≠ k := h (k0, v0) (List.mem_cons_self _ _)
    unfold dictUpsert
    rw [if_neg hk0, ih fun p hp => h p (List.mem_cons_of_mem _ hp)]
    rfl

/-- When the lowercase column names are pairwise distinct, the dict literal
`{c.lower(): c}` is just the column list paired with its lowercase forms. -/
theorem buildLowerMap_nodup (cols : List String)
    (h : (cols.map lowerStr).Nodup) :
    buildLowerMap cols = cols.map fun c => (lowerStr c, c) := by
  suffices H : ∀ (cs : List String) (acc : List (String × String)),
      (acc.map Prod.fst ++ cs.map lowerStr).Nodup →
      cs.foldl (fun m c => dictUpsert (lowerStr c) c m) acc
        = acc ++ cs.map fun c => (lowerStr c, c) by
    simpa using H cols [] (by simpa using h)
  intro cs
  induction cs with
  | nil =>
    intro acc hacc
    simp
  | cons c rest ih =>
    intro acc hacc
    rw [List.foldl_cons]
    have hfresh : ∀ p ∈ acc, p.1 ≠ lowerStr c := by
      intro p hp heq
      have h1 : p.1 ∈ acc.map Prod.fst := List.mem_map_of_mem _ hp
      have h2 : p.1 ∈ (c :: rest).map lowerStr := by
        rw [heq]
        exact List.mem_map_of_mem _ (List.mem_cons_self _ _)
      exact (List.disjoint_of_nodup_append hacc) h1 h2
    rw [dictUpsert_notMem _ _ _ hfresh]
    rw [ih (acc ++ [(lowerStr c, c)]) (by simpa [List.append_assoc] using hacc)]
    simp

/-- Scanning the collision-free dict is scanning the columns in order. -/
theorem findInMap_map (cand : String) (cols : List String) :
    findInMap cand (cols.map fun c => (lowerStr c, c))
      = cols.find? fun col => strContains (lowerStr col) cand := by
  induction cols with
  | nil => rfl
  | cons c rest ih =>
    show (if strContains (lowerStr c) cand then some c else findInMap cand _) = _
    by_cases h : strContains (lowerStr c) cand
    · simp [List.find?_cons, h]
    · simp [List.find?_cons, h, ih]

/-- C8 (amended): provided no two columns share the same lowercase form, the
resolver returns the first column (in declared column order) whose lowercase
name contains a candidate keyword, trying candidates in priority order, and
returns none exactly when no candidate keyword is a case-insensitive
substring of any column name.  When lowercase forms collide, the dict
comprehension keeps only the LAST column of each colliding group (see the
counterexample). -/
theorem c8_find_column (cols cands : List String)
    (hn : (cols.map lowerStr).Nodup) :
    find_column cols cands = resolveSpec cols cands ∧
    (find_column cols cands = none ↔
      ∀ cand ∈ cands, ∀ col ∈ cols,
        strContains (lowerStr col) (lowerStr cand) = false) := by
  have key : ∀ cand, findInMap (lowerStr cand) (buildLowerMap cols)
      = cols.find? fun col => strContains (lowerStr col) (lowerStr cand) := by
    intro cand
    rw [buildLowerMap_nodup cols hn, findInMap_map]
  constructor
  · induction cands with
    | nil => rfl
    | cons cand rest ih =>
      show (match findInMap (lowerStr cand) (buildLowerMap cols) with
        | some c => some c
        | none => find_column cols rest) = _
      rw [key cand]
      unfold resolveSpec
      cases cols.find? fun col => strContains (lowerStr col) (lowerStr cand) with
      | none => simpa using ih
      | some c => rfl
  · induction cands with
    | nil => simp [find_column]
    | cons cand rest ih =>
      show (match findInMap (lowerStr cand) (buildLowerMap cols) with
        | some c => some c
        | none => find_column cols rest) = none ↔ _
      rw [key cand]
      cases hf : cols.find? fun col => strContains (lowerStr col) (lowerStr cand) with
      | none =>
        have hnone : ∀ col ∈ cols, strContains (lowerStr col) (lowerStr cand) = false := by
          intro col hcol
          have := List.find?_eq_none.mp hf col hcol
          simpa using this
        show find_column cols rest = none ↔ _
        rw [ih]
        constructor
        · intro hrest cand' hcand' col hcol
          rcases List.mem_cons.mp hcand' with rfl | hm
          · exact hnone col hcol
          · exact hrest cand' hm col hcol
        · intro hall cand' hm col hcol
          exact hall cand' (List.mem_cons_of_mem _ hm) col hcol
      | some c =>
        refine iff_of_false (by simp) ?_
        intro hall
        have h0 := List.find?_some hf
        have h1 : strContains (lowerStr c) (lowerStr cand) = true := h0
        have h2 : c ∈ cols := List.mem_of_find?_eq_some hf
        rw [hall cand (List.mem_cons_self _ _) c h2] at h1
        exact Bool.false_ne_true h1

/-- C8 witness: the claim's own example — columns `["Year", "YEAR_x"]` have
distinct lowercase forms and keyword `"year"` resolves to `"Year"`, the
first matching column. -/
theorem c8_witness :
    ((["Year", "YEAR_x"].map lowerStr).Nodup) ∧
    find_column ["Year", "YEAR_x"] ["year"] = resolveSpec ["Year", "YEAR_x"] ["year"] ∧
    find_column ["Year", "YEAR_x"] ["year"] = some "Year" :=
  ⟨by decide, (c8_find_column ["Year", "YEAR_x"] ["year"] (by decide)).1, by decide⟩

/-- C8 counterexample: columns `["Year", "YEAR"]` share the lowercase form
`year`; the dict comprehension keeps only the last of them, so the resolver
returns `"YEAR"` — not `"Year"`, the first column in declared order that the
claim requires. -/
theorem c8_counterexample :
    find_column ["Year", "YEAR"] ["year"] = some "YEAR" ∧
    resolveSpec ["Year", "YEAR"] ["year"] = some "Year" ∧
    (some "YEAR" : Option String) ≠ some "Year" := by decide

/-! ## C9 — result keying -/

/-- The `app.py` last-N filter only keeps selected rows. -/
theorem mem_appLastFilter {df sel : List ARow} {span : ℚ} {r : ARow}
    (h : r ∈ appLastFilter df sel span) : r ∈ sel := by
  unfold appLastFilter at h
  cases hm : appMaxYear df with
  | none => rw [hm] at h; cases h
  | some m => rw [hm] at h; exact List.mem_of_mem_filter h

/-- The `app.py` time filter only keeps selected rows. -/
theorem mem_appTimeFilter {df sel : List ARow} {q : QueryView} {r : ARow}
    (h : r ∈ appTimeFilter df sel q) : r ∈ sel := by
  unfold appTimeFilter at h
  split_ifs at h
  · exact mem_appLastFilter h
  · exact mem_appLastFilter h
  · exact mem_appLastFilter h
  · exact List.mem_of_mem_filter h
  · exact h

/-- Any key emitted by the per-location body of `query_rainfall_data` is a
value of the table's location column: the key is `actual_name`, read off the
first row of the filtered selection, which is a row of the table. -/
theorem app_query_loc_key {dsName : String} {df : List ARow} {q : QueryView}
    {allMode : Bool} {location k : String} {st : AStat}
    (h : app_query_loc dsName df q allMode location = some (k, st)) :
    k ∈ df.map ARow.loc := by
  simp only [app_query_loc] at h
  by_cases hall : location = "all"
  · rw [if_pos hall] at h; cases h
  rw [if_neg hall] at h
  by_cases he : (if allMode then df.filter fun r => decide (r.loc = location)
      else df.filter fun r => strContainsCI r.loc location).isEmpty
  · rw [if_pos he] at h; cases h
  rw [if_neg he] at h
  cases hm : appTimeFilter df
      (if allMode then df.filter fun r => decide (r.loc = location)
       else df.filter fun r => strContainsCI r.loc location) q with
  | nil => rw [hm] at h; cases h
  | cons first rest =>
    rw [hm] at h
    simp only [Option.some.injEq, Prod.mk.injEq] at h
    obtain ⟨hk, -⟩ := h
    have hfirst : first ∈ appTimeFilter df
        (if allMode then df.filter fun r => decide (r.loc = location)
         else df.filter fun r => strContainsCI r.loc location) q := by
      rw [hm]; exact List.mem_cons_self _ _
    have hsel := mem_appTimeFilter hfirst
    have hdf : first ∈ df := by
      by_cases ha : allMode
      · rw [if_pos ha] at hsel; exact List.mem_of_mem_filter hsel
      · rw [if_neg ha] at hsel; exact List.mem_of_mem_filter hsel
    rw [← hk]
    exact List.mem_map_of_mem _ hdf

/-- Keys after a dict upsert are the upserted key or previous keys. -/
theorem dictUpsert_fst_mem {α : Type} {k0 k : String} {v : α}
    {m : List (String × α)}
    (h : k0 ∈ (dictUpsert k v m).map Prod.fst) : k0 = k ∨ k0 ∈ m.map Prod.fst := by
  induction m with
  | nil =>
    simp [dictUpsert] at h
    exact Or.inl h
  | cons q rest ih =>
    obtain ⟨k1, v1⟩ := q
    rw [dictUpsert] at h
    by_cases hk : k1 = k
    · rw [if_pos hk] at h
      simp only [List.map_cons, List.mem_cons] at h
      rcases h with h | h
      · exact Or.inl (h.trans hk)
      · exact Or.inr (by simp [h])
    · rw [if_neg hk] at h
      simp only [List.map_cons, List.mem_cons] at h
      rcases h with h | h
      · exact Or.inr (by simp [h])
      · rcases ih h with h' | h'
        · exact Or.inl h'
        · exact Or.inr (by simp [h'])

/-- C9 (amended): every statistic emitted by the `app.py` precipitation
executor is keyed by a resolved location label — a value occurring in the
table's location column, read off the matched rows — never by a string
foreign to the table.  The `analyzer.py` executor instead keys statistics
by the raw query location string; see the counterexample. -/
theorem c9_app_keys (dsName : String) (df : List ARow) (q : QueryView) (k : String)
    (h : k ∈ (app_query_rainfall dsName df q).map Prod.fst) :
    k ∈ df.map ARow.loc := by
  have main : ∀ (cands : List String) (acc : List (String × AStat)),
      (∀ k0 ∈ acc.map Prod.fst, k0 ∈ df.map ARow.loc) →
      ∀ k0 ∈ (cands.foldl (fun acc2 loc =>
        match app_query_loc dsName df q
            (decide (q.locations = ["all"]) || q.locations.contains "all") loc with
        | some (k1, st) => dictUpsert k1 st acc2
        | none => acc2) acc).map Prod.fst, k0 ∈ df.map ARow.loc := by
    intro cands
    induction cands with
    | nil =>
      intro acc hacc k0 h0
      exact hacc k0 h0
    | cons c rest ih =>
      intro acc hacc k0 h0
      rw [List.foldl_cons] at h0
      refine ih _ ?_ k0 h0
      intro k1 h1
      cases hc : app_query_loc dsName df q
          (decide (q.locations = ["all"]) || q.locations.contains "all") c with
      | none =>
        rw [hc] at h1
        exact hacc k1 h1
      | some p =>
        obtain ⟨k2, st2⟩ := p
        rw [hc] at h1
        rcases dictUpsert_fst_mem h1 with rfl | h2
        · exact app_query_loc_key hc
        · exact hacc k1 h2
  simp only [app_query_rainfall] at h
  exact main _ [] (by simp) k h

/-- C9 witness: the `app.py` executor queried for `"Punjab"` keys its
statistic by the table's own label `"PUNJAB REGION"`, which occurs in the
location column. -/
theorem c9_witness :
    "PUNJAB REGION" ∈ (app_query_rainfall "imd.csv" [⟨"PUNJAB REGION", 2000, 600⟩]
      ⟨["Punjab"], [], [], "all"⟩).map Prod.fst ∧
    "PUNJAB REGION" ∈ [(⟨"PUNJAB REGION", 2000, 600⟩ : ARow)].map ARow.loc :=
  ⟨by decide, c9_app_keys "imd.csv" [⟨"PUNJAB REGION", 2000, 600⟩]
    ⟨["Punjab"], [], [], "all"⟩ "PUNJAB REGION" (by decide)⟩

/-- C9 counterexample: the `analyzer.py` executor queried for `"Punjab"` on
a table whose only location label is `"PUNJAB REGION"` keys its statistic by
the raw query string `"Punjab"`, which is not a value of the table's
location column. -/
theorem c9_counterexample :
    (analyzer_query_rainfall "imd.csv" [⟨"PUNJAB REGION", "2000", some 2000, some 600⟩]
      ⟨["Punjab"], [], [], "all"⟩).map Prod.fst = ["Punjab"] ∧
    ¬ ("Punjab" ∈ [(⟨"PUNJAB REGION", "2000", some 2000, some 600⟩ : NRow)].map NRow.loc) := by
  decide

end Samarth
